import Mathlib

/-!
Verification development for the NijiLingo tone-band translation pipeline.

Shallow embedding of the pure logic of:
- src/services/guards.ts   (language guards, modality classifier)
- src/services/groq.ts     (translatePartialSpacy / verifyTranslation /
                            fixMeaningIssues / fixNaturalness result handling)
- the chat screen's band cache (getCacheKey, generateAndCacheUiBuckets,
  generateAllToneAdjustments, verifyAndFixOneBand.applyFix)

Network calls are abstracted as oracles: a model function takes the parsed
outcome of each completion call (success / abort / other failure) and computes
the value the source would return and the cache writes it would perform.
JavaScript strings are modelled as Lean String (a list of unicode scalars);
`===` on strings is Lean equality; a JS `undefined`-able field is an Option.
-/

-- ============ basic data model (src/services/types.ts) ============

inductive Risk
  | low
  | med
  | high
deriving DecidableEq, Repr

/-- TranslationResult from types.ts; the optional detected_language field is
never consulted by the embedded logic and is omitted. -/
structure TranslationResult where
  translation : String
  reverse_translation : String
  risk : Risk
deriving DecidableEq, Repr

inductive ModalityClass
  | request
  | confirmation
  | suggestion
  | obligation
  | statement
deriving DecidableEq, Repr

-- ============ character classes and small string helpers ============

/-- Hiragana range ぁ..ん of the regex classes in guards.ts. -/
def isHiragana (c : Char) : Bool := 0x3041 ≤ c.toNat && c.toNat ≤ 0x3093

/-- Katakana range ァ..ン of the regex classes in guards.ts. -/
def isKatakana (c : Char) : Bool := 0x30A1 ≤ c.toNat && c.toNat ≤ 0x30F3

/-- CJK ideograph range 一..龯 of the regex classes in guards.ts. -/
def isKanji (c : Char) : Bool := 0x4E00 ≤ c.toNat && c.toNat ≤ 0x9FAF

def isKana (c : Char) : Bool := isHiragana c || isKatakana c

/-- guards.ts hasJapaneseCharacters: regex test of a single char of
[ぁ-んァ-ン一-龯] anywhere in the text. -/
def hasJapaneseCharacters (text : String) : Bool :=
  text.data.any (fun c => isHiragana c || isKatakana c || isKanji c)

/-- Regex test /[ぁ-んァ-ン]/ used by the reverse and translation guards. -/
def hasKanaStr (text : String) : Bool := text.data.any isKana

/-- JS String.trim on both ends, modelled on the char list. -/
def trimChars (l : List Char) : List Char :=
  ((l.dropWhile Char.isWhitespace).reverse.dropWhile Char.isWhitespace).reverse

def strTrim (s : String) : String := String.mk (trimChars s.data)

/-- replace of /[ぁ-んァ-ン]+/g by the empty string: every maximal run of kana
chars is removed, i.e. every kana char is filtered out. -/
def removeKanaChars (s : String) : String :=
  String.mk (s.data.filter (fun c => !isKana c))

/-- The char class [ぁ-んァ-ン一-龯！？。、「」『』（）] of the non-Japanese-source
branch of applyReverseTranslationGuard. -/
def isJpGuardChar (c : Char) : Bool :=
  isHiragana c || isKatakana c || isKanji c ||
    ['！', '？', '。', '、', '「', '」', '『', '』', '（', '）'].contains c

/-- replace of /[ぁ-んァ-ン一-龯！？。、「」『』（）]+/g by the empty string. -/
def removeJpChars (s : String) : String :=
  String.mk (s.data.filter (fun c => !isJpGuardChar c))

/-- Substring test (JS String.includes / un-anchored literal regex). -/
def listHasSub (sub : List Char) : List Char → Bool
  | [] => sub.isEmpty
  | c :: rest => sub.isPrefixOf (c :: rest) || listHasSub sub rest

def containsStr (s sub : String) : Bool := listHasSub sub.data s.data

/-- JS String.toLowerCase restricted to ASCII and Latin-1 letters: the only
case distinctions the guards.ts pattern tables can observe. -/
def jsLower (c : Char) : Char :=
  if 0x41 ≤ c.toNat && c.toNat ≤ 0x5A then Char.ofNat (c.toNat + 32)
  else if 0xC0 ≤ c.toNat && c.toNat ≤ 0xDE && c.toNat != 0xD7 then Char.ofNat (c.toNat + 32)
  else c

-- ============ end-anchored replace patterns (guards.ts fixDoubleEnding) ============

/-- One token of an end-anchored regex of fixDoubleEnding: a literal, an
optional char from a class, one-or-more chars from a class, or zero-or-more. -/
inductive SufTok
  | lit (cs : List Char)
  | optC (cs : List Char)
  | plusC (cs : List Char)
  | starC (cs : List Char)

/-- Does the token sequence match the WHOLE char list (the regexes of
fixDoubleEnding are all $-anchored)? The Nat argument is fuel that makes the
recursion structural (and so kernel-computable); every recursive step strictly
decreases the token-count-plus-char-count measure, so the fuel supplied by
sufMatch below is never exhausted and the fuel case never answers. -/
def sufMatchF : Nat → List SufTok → List Char → Bool
  | 0, _, _ => false
  | Nat.succ fuel, ts0, s0 =>
      match ts0, s0 with
      | [], s => s.isEmpty
      | SufTok.lit cs :: ts, s => cs.isPrefixOf s && sufMatchF fuel ts (s.drop cs.length)
      | SufTok.optC cs :: ts, s =>
          sufMatchF fuel ts s ||
            (match s with
             | [] => false
             | c :: rest => cs.contains c && sufMatchF fuel ts rest)
      | SufTok.plusC cs :: ts, s =>
          (match s with
           | [] => false
           | c :: rest => cs.contains c && sufMatchF fuel (SufTok.starC cs :: ts) rest)
      | SufTok.starC cs :: ts, s =>
          sufMatchF fuel ts s ||
            (match s with
             | [] => false
             | c :: rest => cs.contains c && sufMatchF fuel (SufTok.starC cs :: ts) rest)

def sufMatch (ts : List SufTok) (s : List Char) : Bool :=
  sufMatchF (ts.length + s.length + 1) ts s

/-- Non-global JS replace of an end-anchored pattern: the leftmost position
whose suffix matches is replaced by repl (the matched part runs to the end). -/
def replaceSufAux (ts : List SufTok) (repl : List Char) : List Char → List Char
  | [] => if sufMatch ts [] then repl else []
  | c :: rest =>
      if sufMatch ts (c :: rest) then repl else c :: replaceSufAux ts repl rest

/-- Non-global replace of an un-anchored literal followed by an optional
punctuation char (for /ございますございます/ and /いいえいいえ[、,]?/). -/
def replaceMidOnce (pre : List Char) (optPunct : List Char) (repl : List Char) :
    List Char → List Char
  | [] => []
  | c :: rest =>
      if pre.isPrefixOf (c :: rest) then
        match (c :: rest).drop pre.length with
        | d :: ds => if optPunct.contains d then repl ++ ds else repl ++ (d :: ds)
        | [] => repl
      else c :: replaceMidOnce pre optPunct repl rest

def lP (x : String) : SufTok := SufTok.lit x.data

def rS (p : List SufTok) (r : String) (s : List Char) : List Char :=
  replaceSufAux p r.data s

def rM (pre : String) (punct : List Char) (repl : String) (s : List Char) : List Char :=
  replaceMidOnce pre.data punct repl.data s

def exclCls : List Char := ['！', '!']

def stopCls : List Char := ['。']

def stopExclCls : List Char := ['。', '！', '!']

def commaCls : List Char := ['、', ',']

/-- guards.ts fixDoubleEnding: the chain of 41 sequential non-global replaces,
in source order. -/
def fixDoubleEnding (text : String) : String :=
  String.mk (text.data
    |> rS [lP "ですねね", SufTok.optC stopExclCls] "ですね。"
    |> rS [lP "ますねね", SufTok.optC stopExclCls] "ますね。"
    |> rS [lP "だね", SufTok.plusC exclCls, lP "ですね", SufTok.optC stopCls] "だね！"
    |> rS [lP "だよ", SufTok.plusC exclCls, lP "ですね", SufTok.optC stopCls] "だよ！"
    |> rS [lP "よね", SufTok.plusC exclCls, lP "ですね", SufTok.optC stopCls] "よね！"
    |> rS [lP "じゃん", SufTok.plusC exclCls, lP "ですね", SufTok.optC stopCls] "じゃん！"
    |> rM "ございますございます" [] "ございます"
    |> rS [lP "だよ", SufTok.optC ['ね'], lP "じゃん", SufTok.starC exclCls] "じゃん！"
    |> rS [lP "じゃん", SufTok.starC exclCls, lP "だよ", SufTok.optC ['ね'],
           SufTok.starC exclCls] "じゃん！！"
    |> rS [lP "だよ", SufTok.plusC exclCls, lP "じゃん", SufTok.starC exclCls] "じゃん！"
    |> rS [lP "じゃん", SufTok.plusC exclCls, lP "だよ", SufTok.starC exclCls] "じゃん！！"
    |> rS [lP "よね", SufTok.plusC exclCls, lP "じゃん", SufTok.starC exclCls] "じゃん！"
    |> rS [lP "じゃん", SufTok.plusC exclCls, lP "よね", SufTok.starC exclCls] "じゃん！！"
    |> rS [lP "だね", SufTok.plusC exclCls, lP "じゃん", SufTok.starC exclCls] "じゃん！"
    |> rS [lP "だよ", SufTok.plusC exclCls, lP "だね", SufTok.starC exclCls] "だね！"
    |> rS [lP "よね", SufTok.plusC exclCls, lP "だね", SufTok.starC exclCls] "だね！"
    |> rS [lP "だね", SufTok.plusC exclCls, lP "だよ", SufTok.starC exclCls] "だよ！"
    |> rS [lP "ですね", SufTok.optC stopCls, lP "だね", SufTok.starC exclCls] "だね！"
    |> rS [lP "ますね", SufTok.optC stopCls, lP "だね", SufTok.starC exclCls] "だね！"
    |> rS [lP "よじゃん", SufTok.starC exclCls] "じゃん！"
    |> rS [lP "ないよじゃん", SufTok.starC exclCls] "ないじゃん！"
    |> rS [lP "だよじゃん", SufTok.starC exclCls] "じゃん！"
    |> rS [lP "よ", SufTok.plusC exclCls, lP "じゃん", SufTok.starC exclCls] "じゃん！"
    |> rS [lP "ですねでございます", SufTok.optC stopCls] "でございます。"
    |> rS [lP "ますねでございます", SufTok.optC stopCls] "でございます。"
    |> rS [lP "ですねございます", SufTok.optC stopCls] "でございます。"
    |> rS [lP "ですでございます", SufTok.optC stopCls] "でございます。"
    |> rS [lP "ますでございます", SufTok.optC stopCls] "でございます。"
    |> rS [lP "ですねですね", SufTok.optC stopCls] "ですね。"
    |> rS [lP "ますねますね", SufTok.optC stopCls] "ますね。"
    |> rS [lP "ございますね", SufTok.optC stopCls, lP "でございます",
           SufTok.optC stopCls] "でございます。"
    |> rS [lP "でございます", SufTok.optC stopCls, lP "ございますね",
           SufTok.optC stopCls] "でございますね。"
    |> rS [lP "ませんですね", SufTok.optC stopCls] "ませんね。"
    |> rS [lP "ませんでございます", SufTok.optC stopCls] "ません。"
    |> rS [lP "ございませんでございます", SufTok.optC stopCls] "ございません。"
    |> rS [lP "ないねですね", SufTok.optC stopCls] "ないですね。"
    |> rM "いいえいいえ" commaCls "いいえ、"
    |> rS [lP "です", SufTok.optC stopCls, lP "です", SufTok.optC stopCls] "です。"
    |> rS [lP "ます", SufTok.optC stopCls, lP "ます", SufTok.optC stopCls] "ます。"
    |> rS [lP "ですね", SufTok.optC stopCls, lP "ますね", SufTok.optC stopCls] "ますね。"
    |> rS [lP "ますね", SufTok.optC stopCls, lP "ですね", SufTok.optC stopCls] "ですね。")

-- ============ the three response guards (guards.ts) ============

/-- guards.ts applyEvaluationWordGuard. -/
def applyEvaluationWordGuard (sourceText : String) (result : TranslationResult) :
    TranslationResult :=
  if containsStr sourceText "素敵" && !containsStr result.reverse_translation "素敵" then
    { result with risk := Risk.high }
  else
    let generalClothingTerms := ["洋服", "服装", "服", "コーデ", "装い"]
    let explicitDressTerms := ["ドレス", "ワンピース"]
    let hasGeneralClothing := generalClothingTerms.any (fun t => containsStr sourceText t)
    let hasExplicitDress := explicitDressTerms.any (fun t => containsStr sourceText t)
    if hasGeneralClothing && !hasExplicitDress &&
        containsStr (String.mk (result.translation.data.map jsLower)) "dress" then
      { result with risk := Risk.high }
    else result

/-- guards.ts applyReverseTranslationGuard. -/
def applyReverseTranslationGuard (sourceLang : String) (result : TranslationResult) :
    TranslationResult :=
  let reverseText := strTrim result.reverse_translation
  if sourceLang ≠ "日本語" then
    if sourceLang = "中国語" || sourceLang = "韓国語" then
      if hasKanaStr reverseText then
        { result with reverse_translation := strTrim (removeKanaChars reverseText),
                      risk := Risk.high }
      else result
    else
      if hasJapaneseCharacters reverseText then
        { result with reverse_translation := strTrim (removeJpChars reverseText),
                      risk := Risk.high }
      else result
  else
    let fixedText := fixDoubleEnding reverseText
    if fixedText = "" || !hasJapaneseCharacters fixedText then
      { result with reverse_translation := fixedText, risk := Risk.high }
    else
      { result with reverse_translation := fixedText }

/-- guards.ts applyTranslationLanguageGuard. -/
def applyTranslationLanguageGuard (targetLang : String) (result : TranslationResult) :
    TranslationResult :=
  if targetLang = "日本語" || targetLang = "中国語" then result
  else if hasKanaStr result.translation then
    let cleanedTranslation := strTrim (removeKanaChars result.translation)
    { result with
        translation := if cleanedTranslation = "" then result.translation
                       else cleanedTranslation,
        risk := Risk.high }
  else result

/-- The guard chain applied to every parsed full-translation response
(groq.ts translateFull / translateFullSimple). -/
def applyGuardsFull (sourceText sourceLang targetLang : String)
    (parsed : TranslationResult) : TranslationResult :=
  applyTranslationLanguageGuard targetLang
    (applyReverseTranslationGuard sourceLang (applyEvaluationWordGuard sourceText parsed))

-- ============ modality classifier (guards.ts extractModalityClass) ============

/-- JS regex word char \w = [A-Za-z0-9_]; used for the boundary \b. -/
def isWordChar (c : Char) : Bool :=
  (0x41 ≤ c.toNat && c.toNat ≤ 0x5A) || (0x61 ≤ c.toNat && c.toNat ≤ 0x7A) ||
    (0x30 ≤ c.toNat && c.toNat ≤ 0x39) || c = '_'

/-- A word boundary holds to the left of a match position. -/
def boundOk (prev : Option Char) : Bool :=
  match prev with
  | none => true
  | some c => !isWordChar c

/-- A word boundary holds at the start of the remainder after a match. -/
def nextOk (after : List Char) : Bool :=
  match after with
  | [] => true
  | c :: _ => !isWordChar c

/-- Does some alternative match at some position of s, with optional left/right
word boundaries and a predicate on the rest of the string after the match?
prev carries the char just before the current position. -/
def scanBoundP (alts : List (List Char)) (lB rB : Bool) (post : List Char → Bool)
    (prev : Option Char) (s : List Char) : Bool :=
  ((!lB || boundOk prev) &&
    alts.any (fun a => a.isPrefixOf s && (!rB || nextOk (s.drop a.length)) &&
      post (s.drop a.length))) ||
  (match s with
   | [] => false
   | c :: rest => scanBoundP alts lB rB post (some c) rest)

/-- Un-anchored literal search (one of several alternatives). -/
def containsAnyL (alts : List (List Char)) (s : List Char) : Bool :=
  scanBoundP alts false false (fun _ => true) none s

/-- \b-delimited word search (both boundaries), e.g. /\bmust\b/. -/
def containsWordAny (alts : List (List Char)) (s : List Char) : Bool :=
  scanBoundP alts true true (fun _ => true) none s

/-- Left-boundary-only search, e.g. /\bmohl[a]?\s?by/. -/
def containsLeftWord (alts : List (List Char)) (s : List Char) : Bool :=
  scanBoundP alts true false (fun _ => true) none s

/-- Anchored start match with a trailing word boundary, e.g. /^can you\b/. -/
def startsBounded (alts : List (List Char)) (s : List Char) : Bool :=
  alts.any (fun a => a.isPrefixOf s && nextOk (s.drop a.length))

/-- Plain anchored start match, e.g. /^请/. -/
def startsAnyL (alts : List (List Char)) (s : List Char) : Bool :=
  alts.any (fun a => a.isPrefixOf s)

def endsWithL (suf s : List Char) : Bool := suf.reverse.isPrefixOf s.reverse

/-- The tail condition .*\?$ of a pattern (JS . does not cross a newline). -/
def qTail (r : List Char) : Bool := endsWithL ['?'] r && !r.contains '\n'

/-- Patterns of the form /^lead\b.*\?$/, e.g. /^are you\b.*\?$/. -/
def startQEnd (alts : List (List Char)) (s : List Char) : Bool :=
  alts.any (fun a => a.isPrefixOf s && nextOk (s.drop a.length) && qTail (s.drop a.length))

/-- /\bplease\b.*\?$/ : a word-bounded "please" whose remainder ends in ?. -/
def pleaseReq (s : List Char) : Bool :=
  scanBoundP [("please").data] true true qTail none s

/-- End-anchored literal with a REQUIRED question mark [？?], e.g. /くれる[？?]$/. -/
def endsReqQ (cores : List (List Char)) (s : List Char) : Bool :=
  cores.any (fun c => endsWithL (c ++ ['？']) s || endsWithL (c ++ ['?']) s)

/-- End-anchored literal with an OPTIONAL question mark [？?]?, e.g. /なの[？?]?$/. -/
def endsOptQ (cores : List (List Char)) (s : List Char) : Bool :=
  cores.any (fun c => endsWithL c s || endsWithL (c ++ ['？']) s || endsWithL (c ++ ['?']) s)

/-- Does some post-alternative (with optional right boundary) start here? -/
def postsHit (posts : List (List Char)) (rB : Bool) (r : List Char) : Bool :=
  posts.any (fun q => q.isPrefixOf r && (!rB || nextOk (r.drop q.length)))

/-- A \s? gap followed by one of the post-alternatives. -/
def wsOptMatch (posts : List (List Char)) (rB : Bool) (r : List Char) : Bool :=
  postsHit posts rB r ||
    (match r with
     | c :: rest => c.isWhitespace && postsHit posts rB rest
     | [] => false)

/-- Search for pre + \s? + post with optional boundaries, e.g. /해\s?주세요/,
/\bmohl[a]?\s?by/, /\bm[eě]l[a]?\s?by\b/. -/
def scanWS (pres posts : List (List Char)) (lB rB : Bool) (prev : Option Char)
    (s : List Char) : Bool :=
  ((!lB || boundOk prev) &&
    pres.any (fun p => p.isPrefixOf s && wsOptMatch posts rB (s.drop p.length))) ||
  (match s with
   | [] => false
   | c :: rest => scanWS pres posts lB rB (some c) rest)

/-- /,\s*right[？?.]?$/ : a comma, any whitespace, "right", optional [？?.], end. -/
def commaRightTest (s : List Char) : Bool :=
  let chk := fun (l : List Char) =>
    ("thgir").data.isPrefixOf l &&
      (match (l.drop 5).dropWhile Char.isWhitespace with
       | c :: _ => c = ','
       | [] => false)
  let r := s.reverse
  chk r ||
    (match r with
     | c :: rest => (c = '？' || c = '?' || c = '.') && chk rest
     | [] => false)

/-- /^我们.+吧$/ : starts 我们, ends 吧, at least one (non-newline) char between. -/
def womenBa (s : List Char) : Bool :=
  ("我们").data.isPrefixOf s && endsWithL [('吧' : Char)] s && s.length ≥ 4 &&
    !((s.drop 2).dropLast.contains '\n')

def cL (x : String) : List Char := x.data

/-- The requestPatterns table of extractModalityClass, in source order. -/
def requestMatch (s : List Char) : Bool :=
  startsBounded [cL "can you"] s ||
  startsBounded [cL "could you"] s ||
  startsBounded [cL "would you"] s ||
  startsBounded [cL "will you"] s ||
  startsBounded [cL "please"] s ||
  pleaseReq s ||
  startsBounded [cL "would you mind"] s ||
  containsWordAny [cL "i\x27d like you to"] s ||
  containsWordAny [cL "would it be possible"] s ||
  containsWordAny [cL "i was wondering if"] s ||
  containsAnyL [cL "してくれ"] s ||
  containsAnyL [cL "してもらえ"] s ||
  containsAnyL [cL "お願い"] s ||
  containsAnyL [cL "していただ"] s ||
  endsReqQ [cL "くれる"] s ||
  endsReqQ [cL "もらえる"] s ||
  endsReqQ [cL "いただける"] s ||
  containsAnyL [cL "してほしい"] s ||
  containsAnyL [cL "てくださ"] s ||
  containsAnyL [cL "ていただきたい"] s ||
  endsWithL (cL "てくれよ") s ||
  containsWordAny [cL "por favor"] s ||
  containsWordAny [cL "podria", cL "podría", cL "podrias", cL "podrías"] s ||
  containsWordAny [cL "s\x27il te plait", cL "s\x27il te plaît",
    cL "s\x27il vous plait", cL "s\x27il vous plaît"] s ||
  containsWordAny [cL "pourriezvous", cL "pourriez-vous", cL "pourrieztu",
    cL "pourriez-tu", cL "pourraisvous", cL "pourrais-vous", cL "pourraistu",
    cL "pourrais-tu"] s ||
  containsWordAny [cL "bitte"] s ||
  containsWordAny [cL "konntest", cL "konnten", cL "könntest", cL "könnten"] s ||
  containsWordAny [cL "wurdest", cL "wurden", cL "würdest", cL "würden"] s ||
  containsWordAny [cL "per favore"] s ||
  containsWordAny [cL "potresti"] s ||
  containsWordAny [cL "potrebbe"] s ||
  containsWordAny [cL "por favor"] s ||
  containsWordAny [cL "poderia"] s ||
  containsWordAny [cL "voce poderia", cL "você poderia"] s ||
  scanWS [cL "해"] [cL "주세요"] false false none s ||
  scanWS [cL "해"] [cL "줄래"] false false none s ||
  containsAnyL [cL "부탁"] s ||
  startsAnyL [cL "请"] s ||
  containsAnyL [cL "能不能"] s ||
  containsWordAny [cL "prosim", cL "prosím"] s ||
  scanWS [cL "mohl", cL "mohla"] [cL "by"] true false none s

/-- The confirmationPatterns table of extractModalityClass, in source order. -/
def confirmationMatch (s : List Char) : Bool :=
  startQEnd [cL "are you"] s ||
  startQEnd [cL "is it"] s ||
  startQEnd [cL "is this"] s ||
  startQEnd [cL "is that"] s ||
  startQEnd [cL "did you"] s ||
  startQEnd [cL "do you"] s ||
  startQEnd [cL "does"] s ||
  startQEnd [cL "have you"] s ||
  startQEnd [cL "has"] s ||
  startQEnd [cL "isn\x27t it"] s ||
  startQEnd [cL "don\x27t you"] s ||
  commaRightTest s ||
  endsReqQ [cL "するの"] s ||
  endsOptQ [cL "なの"] s ||
  endsOptQ [cL "てるの", cL "でるの"] s ||
  endsOptQ [cL "たの"] s ||
  endsOptQ [cL "でしょ"] s ||
  endsOptQ [cL "だろ"] s ||
  endsOptQ [cL "ですか"] s ||
  endsOptQ [cL "ますか"] s ||
  containsAnyL [cL "でしょうか"] s ||
  endsReqQ [cL "よね"] s ||
  endsReqQ [cL "じゃない"] s ||
  startsAnyL [cL "¿está", cL "¿esta"] s ||
  startsAnyL [cL "¿tiene"] s ||
  startsAnyL [cL "est-ce que"] s ||
  startsAnyL [cL "n\x27est-ce pas"] s ||
  startsAnyL [cL "ist das", cL "ist es"] s ||
  endsReqQ [cL "oder"] s ||
  startsAnyL [cL "hai "] s ||
  endsReqQ [cL "vero"] s ||
  endsReqQ [cL "né"] s ||
  endsReqQ [cL "맞아"] s ||
  endsOptQ [cL "인가요"] s ||
  containsAnyL [cL "잖아"] s ||
  startsAnyL [cL "是不是"] s ||
  containsAnyL [cL "对吧"] s ||
  startsAnyL [cL "je to"] s

/-- The suggestionPatterns table of extractModalityClass, in source order. -/
def suggestionMatch (s : List Char) : Bool :=
  startsBounded [cL "how about"] s ||
  startsBounded [cL "why don\x27t we", cL "why don\x27t you"] s ||
  startsBounded [cL "let\x27s"] s ||
  startsBounded [cL "shall we"] s ||
  startsBounded [cL "what if"] s ||
  containsWordAny [cL "you might want to"] s ||
  containsWordAny [cL "maybe we should"] s ||
  endsOptQ [cL "しよう"] s ||
  endsReqQ [cL "しない"] s ||
  endsReqQ [cL "どう"] s ||
  containsAnyL [cL "たらどう"] s ||
  containsAnyL [cL "ませんか"] s ||
  containsAnyL [cL "てみない"] s ||
  startsAnyL [cL "¿qué tal si"] s ||
  startsAnyL [cL "¿por qué no"] s ||
  startsAnyL [cL "et si"] s ||
  startsAnyL [cL "pourquoi ne pas"] s ||
  containsWordAny [cL "on pourrait"] s ||
  startsAnyL [cL "wie wäre es", cL "wie ware es"] s ||
  startsAnyL [cL "lass uns"] s ||
  startsAnyL [cL "sollen wir"] s ||
  startsAnyL [cL "che ne dici"] s ||
  startsAnyL [cL "perché non", cL "perche non"] s ||
  startsAnyL [cL "facciamo"] s ||
  startsAnyL [cL "que tal"] s ||
  startsAnyL [cL "por que não"] s ||
  endsReqQ [cL "할까"] s ||
  containsAnyL [cL "하자"] s ||
  containsAnyL [cL "어때"] s ||
  containsAnyL [cL "怎么样"] s ||
  womenBa s ||
  containsAnyL [cL "不如"] s ||
  startsAnyL [cL "co kdybychom"] s ||
  startsAnyL [cL "pojďme"] s

/-- The obligationPatterns table of extractModalityClass, in source order. -/
def obligationMatch (s : List Char) : Bool :=
  containsWordAny [cL "must"] s ||
  containsWordAny [cL "have to"] s ||
  containsWordAny [cL "need to"] s ||
  containsWordAny [cL "should"] s ||
  containsWordAny [cL "ought to"] s ||
  containsWordAny [cL "supposed to"] s ||
  containsWordAny [cL "had better"] s ||
  containsAnyL [cL "しなければ"] s ||
  containsAnyL [cL "しないと"] s ||
  containsAnyL [cL "べき"] s ||
  containsAnyL [cL "なくてはいけない"] s ||
  containsAnyL [cL "すべき"] s ||
  containsAnyL [cL "ねばならない"] s ||
  endsWithL (cL "なきゃ") s ||
  endsWithL (cL "ないと") s ||
  containsWordAny [cL "tener que"] s ||
  containsWordAny [cL "tiene que", cL "tienes que", cL "tienen que"] s ||
  containsWordAny [cL "hay que"] s ||
  containsWordAny [cL "il faut"] s ||
  containsWordAny [cL "devrais", cL "devrait", cL "devrions", cL "devriez",
    cL "devraient"] s ||
  containsWordAny [cL "dois", cL "doit", cL "doivent"] s ||
  containsWordAny [cL "mussen", cL "musst", cL "muss", cL "müssen", cL "müsst",
    cL "müss"] s ||
  containsWordAny [cL "sollen", cL "sollst", cL "sollte", cL "sollten", cL "soll"] s ||
  containsWordAny [cL "devo", cL "devi", cL "deve"] s ||
  containsWordAny [cL "bisogna"] s ||
  containsWordAny [cL "tem que"] s ||
  containsWordAny [cL "preciso", cL "precisa"] s ||
  containsWordAny [cL "deve"] s ||
  containsAnyL [cL "해야"] s ||
  scanWS [cL "어야"] [cL "하"] false false none s ||
  scanWS [cL "아야"] [cL "하"] false false none s ||
  containsAnyL [cL "必须"] s ||
  containsAnyL [cL "应该"] s ||
  containsWordAny [cL "musim", cL "musis", cL "musiš", cL "musime", cL "musite",
    cL "musí", cL "musím", cL "musís", cL "musíš", cL "musíme", cL "musíte",
    cL "musi"] s ||
  scanWS [cL "mel", cL "měl", cL "mela", cL "měla"] [cL "by"] true true none s

/-- JS text.trim().toLowerCase() normalization step of extractModalityClass. -/
def jsNormalize (text : String) : List Char := (trimChars text.data).map jsLower

/-- guards.ts extractModalityClass: ordered pattern-table classification. -/
def extractModalityClass (text : String) : ModalityClass :=
  let normalized := jsNormalize text
  if requestMatch normalized then ModalityClass.request
  else if confirmationMatch normalized then ModalityClass.confirmation
  else if suggestionMatch normalized then ModalityClass.suggestion
  else if obligationMatch normalized then ModalityClass.obligation
  else ModalityClass.statement

def modalityName : ModalityClass → String
  | ModalityClass.request => "request"
  | ModalityClass.confirmation => "confirmation"
  | ModalityClass.suggestion => "suggestion"
  | ModalityClass.obligation => "obligation"
  | ModalityClass.statement => "statement"

structure ModalityCheck where
  passed : Bool
  reason : Option String
deriving DecidableEq, Repr

/-- guards.ts checkModalityConsistency. -/
def checkModalityConsistency (originalText translatedText : String) : ModalityCheck :=
  let originalModality := extractModalityClass originalText
  let translatedModality := extractModalityClass translatedText
  if originalModality = ModalityClass.statement then ⟨true, none⟩
  else if (originalModality = ModalityClass.request ∧
             translatedModality = ModalityClass.confirmation) ∨
          (originalModality = ModalityClass.confirmation ∧
             translatedModality = ModalityClass.request) then
    ⟨false, some ("modality_violation: " ++ modalityName originalModality ++ " → " ++
      modalityName translatedModality)⟩
  else if originalModality ≠ translatedModality then
    ⟨false, some ("modality_violation: " ++ modalityName originalModality ++ " → " ++
      modalityName translatedModality)⟩
  else ⟨true, none⟩

-- ============ band cache key (chat screen getCacheKey) ============

def PROMPT_VERSION : String := "2026-02-11-phase2d-fix3"

/-- Chat screen getCacheKey. A JS optional/nullable string parameter is an
Option String; the empty string is falsy like undefined, per tone || and
sourceLang || in the source. -/
def getCacheKey (tone : Option String) (toneBucket : Nat) (sourceText : String)
    (customToneText : Option String) (sourceLang targetLang : Option String)
    (isNative : Bool) : String :=
  let normalizedTone :=
    match tone with
    | some t => if t = "" then "none" else t
    | none => "none"
  let customPart :=
    if tone = some "custom" then
      match customToneText with
      | some c => if c = "" then "" else "_" ++ c
      | none => ""
    else ""
  let langPart :=
    (match sourceLang with
     | some l => if l = "" then "auto" else l
     | none => "auto") ++ "->" ++
    (match targetLang with
     | some l => if l = "" then "unknown" else l
     | none => "unknown")
  let nativePart := if isNative then "_native" else ""
  PROMPT_VERSION ++ "|" ++ langPart ++ "|" ++ sourceText ++ "|" ++ normalizedTone ++
    "_" ++ toString toneBucket ++ customPart ++ nativePart

/-- The spec's cache key format, written from the spec's words: the string
"promptVersion|sourceLang->targetLang|sourceText|tone_level" followed by an
optional "_customStyle" and an optional "_native" marker. Used only to compare
getCacheKey against the documented format. -/
def specCacheKeyFormat (promptVersion sourceLang targetLang sourceText tone : String)
    (level : Nat) (customStyle : Option String) (nativeMarker : Bool) : String :=
  promptVersion ++ "|" ++ sourceLang ++ "->" ++ targetLang ++ "|" ++ sourceText ++
    "|" ++ tone ++ "_" ++ toString level ++
    (match customStyle with
     | some c => "_" ++ c
     | none => "") ++
    (if nativeMarker then "_native" else "")

-- ============ completion-call outcomes ============

/-- The outcome of one awaited completion (or parse) step: a parsed value, an
AbortError (user cancellation), or any other thrown error. -/
inductive CallOutcome (α : Type)
  | ok (val : α)
  | aborted
  | failed
deriving DecidableEq, Repr

/-- JS x || dflt for an optional string field (empty string is falsy). -/
def jsOrStr (o : Option String) (dflt : String) : String :=
  match o with
  | some s => if s = "" then dflt else s
  | none => dflt

-- ============ translatePartialSpacy (groq.ts) ============

/-- The options record of groq.ts translateFullSimple, used to record exactly
which arguments the modality fallback passes to the regeneration call. -/
structure FullSimpleArgs where
  sourceText : String
  sourceLang : String
  targetLang : String
  contentWords : Option String
  meaningConstraint : Option String
  toneInstructionArg : Option String
  tone : Option String
deriving DecidableEq, Repr

/-- The JSON fields parsed from the PARTIAL completion response. -/
structure ParsedPartial where
  translation : Option String
  reverse_translation : Option String
deriving DecidableEq, Repr

/-- Oracles for the two completion calls translatePartialSpacy can make: the
partial call itself (with JSON parse folded in) and translateFullSimple as
invoked by the modality fallback. -/
structure PartialEnv where
  partialCall : CallOutcome ParsedPartial
  fullSimple : FullSimpleArgs → CallOutcome TranslationResult

/-- groq.ts translatePartialSpacy, lines 512-564: result construction, the
language guard, the modality guard with its two fallbacks, and the catch that
degrades non-abort failures to the base translation with risk high while
re-throwing AbortError. The Bool records whether the fallback regeneration
call (a new network call) was issued. Prompt assembly and logging, which do
not influence the returned value, are omitted. -/
def translatePartialSpacyModel (baseTranslation : String) (tone : String)
    (toneLevel : Nat) (targetLang sourceLang originalText : String)
    (fallbackToPreviousLevel : Option TranslationResult)
    (meaningConstraint : Option String) (env : PartialEnv) :
    CallOutcome TranslationResult × Bool :=
  match env.partialCall with
  | CallOutcome.aborted => (CallOutcome.aborted, false)
  | CallOutcome.failed =>
      (CallOutcome.ok ⟨baseTranslation, originalText, Risk.high⟩, false)
  | CallOutcome.ok parsed =>
      let guarded := applyTranslationLanguageGuard targetLang
        ⟨jsOrStr parsed.translation baseTranslation,
         jsOrStr parsed.reverse_translation originalText, Risk.low⟩
      let partialResult : TranslationResult :=
        ⟨guarded.translation, guarded.reverse_translation, guarded.risk⟩
      let modalityCheck := checkModalityConsistency originalText partialResult.translation
      if modalityCheck.passed then (CallOutcome.ok partialResult, false)
      else
        match fallbackToPreviousLevel with
        | some fb => (CallOutcome.ok fb, false)
        | none =>
            match env.fullSimple
              ⟨originalText, sourceLang, targetLang, none, meaningConstraint,
               none, none⟩ with
            | CallOutcome.ok r =>
                (CallOutcome.ok ⟨r.translation, r.reverse_translation, r.risk⟩, true)
            | CallOutcome.aborted => (CallOutcome.aborted, true)
            | CallOutcome.failed =>
                (CallOutcome.ok ⟨baseTranslation, originalText, Risk.high⟩, true)

-- ============ noChange computation of the two generators (chat screen) ============

/-- A band cache entry; noChange is an optional JS field, so none models
undefined (a cacheBucket call without the noChange argument). -/
structure CacheEntry where
  translation : String
  reverseTranslation : String
  noChange : Option Bool
deriving DecidableEq, Repr

/-- generateAndCacheUiBuckets, non-custom path: given the outcomes of the base
generation and the two partial generations, the entries cached for buckets
0, 50 and 100 of the tone (lines 413-454 of the chat screen). -/
def generateAndCacheUiBucketsEntries (sourceText : String)
    (fullResult lvl50 lvl100 : TranslationResult) :
    CacheEntry × CacheEntry × CacheEntry :=
  let base0 : CacheEntry := ⟨fullResult.translation, sourceText, none⟩
  let noChange50 := lvl50.translation == fullResult.translation
  let noChange100 :=
    lvl100.translation ==
      (if noChange50 then fullResult.translation else lvl50.translation)
  let entry50 : CacheEntry :=
    ⟨lvl50.translation,
     if noChange50 then sourceText else lvl50.reverse_translation,
     some noChange50⟩
  let entry100 : CacheEntry :=
    ⟨lvl100.translation,
     if noChange100 then (if noChange50 then sourceText else lvl50.reverse_translation)
     else lvl100.reverse_translation,
     some noChange100⟩
  (base0, entry50, entry100)

/-- The generation outcomes generateAllToneAdjustments can consume: the base,
the two 50% partials, their full-simple retries (used only when a 50% result
collapses onto the base), the casual 100% full generation, the business 100%
partial and its retry (used only when it collapses onto its reference). -/
structure AllToneOutcomes where
  fullResult : TranslationResult
  casual50First : TranslationResult
  business50First : TranslationResult
  casual50Retry : TranslationResult
  business50Retry : TranslationResult
  casual100Full : TranslationResult
  business100First : TranslationResult
  business100Retry : TranslationResult
deriving DecidableEq, Repr

/-- The 50% casual result after the no-change retry (source local
finalCasual50: the retry replaces a result that collapsed onto the base). -/
def finalCasual50 (g : AllToneOutcomes) : TranslationResult :=
  if g.casual50First.translation = g.fullResult.translation then g.casual50Retry
  else g.casual50First

/-- The 50% business result after the no-change retry (source finalBusiness50). -/
def finalBusiness50 (g : AllToneOutcomes) : TranslationResult :=
  if g.business50First.translation = g.fullResult.translation then g.business50Retry
  else g.business50First

/-- The reference text the business 100% result is compared against for its
retry (source bus100Ref). -/
def bus100Ref (g : AllToneOutcomes) : String :=
  if (finalBusiness50 g).translation = g.fullResult.translation then
    g.fullResult.translation
  else (finalBusiness50 g).translation

/-- The business 100% result after the no-change retry (source finalBusiness100). -/
def finalBusiness100 (g : AllToneOutcomes) : TranslationResult :=
  if g.business100First.translation = bus100Ref g then g.business100Retry
  else g.business100First

/-- All six cache entries written by generateAllToneAdjustments
(casual 0/50/100, business 0/50/100), lines 493-586 of the chat screen:
retry selection, the business-100 reference, the four noChange flags and
makeCachedResult. -/
def generateAllToneAdjustmentsEntries (sourceText : String) (g : AllToneOutcomes) :
    CacheEntry × CacheEntry × CacheEntry × CacheEntry × CacheEntry × CacheEntry :=
  let noChangeCas50 := (finalCasual50 g).translation == g.fullResult.translation
  let noChangeCas100 :=
    g.casual100Full.translation ==
      (if noChangeCas50 then g.fullResult.translation else (finalCasual50 g).translation)
  let noChangeBus50 := (finalBusiness50 g).translation == g.fullResult.translation
  let noChangeBus100 :=
    (finalBusiness100 g).translation ==
      (if noChangeBus50 then g.fullResult.translation
       else (finalBusiness50 g).translation)
  let casual0 : CacheEntry := ⟨g.fullResult.translation, sourceText, none⟩
  let business0 : CacheEntry := ⟨g.fullResult.translation, sourceText, none⟩
  let casual50 : CacheEntry :=
    ⟨(finalCasual50 g).translation,
     if noChangeCas50 then sourceText else (finalCasual50 g).reverse_translation,
     some noChangeCas50⟩
  let casual100 : CacheEntry :=
    ⟨g.casual100Full.translation,
     if noChangeCas100 then
       (if noChangeCas50 then sourceText else (finalCasual50 g).reverse_translation)
     else g.casual100Full.reverse_translation,
     some noChangeCas100⟩
  let business50 : CacheEntry :=
    ⟨(finalBusiness50 g).translation,
     if noChangeBus50 then sourceText else (finalBusiness50 g).reverse_translation,
     some noChangeBus50⟩
  let business100 : CacheEntry :=
    ⟨(finalBusiness100 g).translation,
     if noChangeBus100 then
       (if noChangeBus50 then sourceText else (finalBusiness50 g).reverse_translation)
     else (finalBusiness100 g).reverse_translation,
     some noChangeBus100⟩
  (casual0, casual50, casual100, business0, business50, business100)

-- ============ band cache and verifyAndFixOneBand (chat screen) ============

/-- The band cache: a total lookup from key strings to optional entries
(translationCacheRef.current). -/
def Cache : Type := String → Option CacheEntry

/-- One updateTranslationCache call: all listed keys replaced at once
(Object.assign of one updates record). -/
def writeBatch (cache : Cache) (updates : List (String × CacheEntry)) : Cache :=
  updates.foldl (fun acc kv => fun k => if k = kv.1 then some kv.2 else acc k) cache

/-- The key applyFix computes for a band: getCacheKey with an undefined custom
tone text (applyFix is only reached for casual/business bands). -/
def bandKey (tone : String) (bucket : Nat) (sourceText sourceLang targetLang : String)
    (isNativeParam : Bool) : String :=
  getCacheKey (some tone) bucket sourceText none (some sourceLang) (some targetLang)
    isNativeParam

/-- verifyAndFixOneBand.applyFix, lines 318-339 of the chat screen, after the
two keys are computed: write the fixed band, then reconcile the sibling
bucket. Returns the final cache and the trace of updateTranslationCache
batches, in call order. The preview-state update (a UI concern) is omitted. -/
def applyFixCore (bucket : Nat) (cacheKey otherKey : String)
    (fixedTranslation fixedReverse : String) (cache : Cache) :
    Cache × List (List (String × CacheEntry)) :=
  let batch1 : List (String × CacheEntry) :=
    [(cacheKey, ⟨fixedTranslation, fixedReverse, none⟩)]
  let c1 := writeBatch cache batch1
  match c1 otherKey with
  | some cachedOther =>
      if cachedOther.translation = fixedTranslation then
        let batch2 : List (String × CacheEntry) :=
          [(otherKey, ⟨cachedOther.translation, fixedReverse, some true⟩),
           (cacheKey, ⟨fixedTranslation, fixedReverse, some true⟩)]
        (writeBatch c1 batch2, [batch1, batch2])
      else if bucket = 50 then
        let newNoChange := cachedOther.translation == fixedTranslation
        if cachedOther.noChange ≠ some newNoChange then
          let batch3 : List (String × CacheEntry) :=
            [(otherKey, { cachedOther with noChange := some newNoChange })]
          (writeBatch c1 batch3, [batch1, batch3])
        else (c1, [batch1])
      else (c1, [batch1])
  | none => (c1, [batch1])

/-- verifyAndFixOneBand.applyFix with its key computations: the band's own key
and the sibling bucket's key (50 versus 100). -/
def applyFixModel (tone : String) (bucket : Nat)
    (sourceText sourceLang targetLang : String) (isNativeParam : Bool)
    (fixedTranslation fixedReverse : String) (cache : Cache) :
    Cache × List (List (String × CacheEntry)) :=
  applyFixCore bucket (bandKey tone bucket sourceText sourceLang targetLang isNativeParam)
    (bandKey tone (if bucket = 50 then 100 else 50) sourceText sourceLang targetLang
      isNativeParam)
    fixedTranslation fixedReverse cache

inductive IssueType
  | meaning_shift
  | meaning_loss
  | meaning_addition
  | unnatural
  | reverse_subject
  | reverse_unnatural
deriving DecidableEq, Repr

inductive Severity
  | high
  | medium
  | low
deriving DecidableEq, Repr

/-- A VerificationIssue restricted to the fields verifyAndFixOneBand branches
on; the word/expected/got/phrase/reason payload is only echoed into prompts. -/
structure VerificationIssue where
  type : IssueType
  severity : Severity
deriving DecidableEq, Repr

structure VerificationResult where
  pass : Bool
  issues : List VerificationIssue
deriving DecidableEq, Repr

/-- The JSON fields parsed from the verification response (pass ?? true,
issues || []). -/
structure ParsedVerification where
  pass : Option Bool
  issues : Option (List VerificationIssue)
deriving DecidableEq, Repr

/-- The JSON fields parsed from a fixer response. -/
structure ParsedFix where
  translation : Option String
  reverse_translation : Option String
deriving DecidableEq, Repr

/-- groq.ts verifyTranslation, lines 672-685: a successful call fills the
defaults, an AbortError is re-thrown (none), any other failure degrades to
a pass with no issues. -/
def verifyTranslationModel (api : CallOutcome ParsedVerification) :
    Option VerificationResult :=
  match api with
  | CallOutcome.ok parsed => some ⟨parsed.pass.getD true, parsed.issues.getD []⟩
  | CallOutcome.aborted => none
  | CallOutcome.failed => some ⟨true, []⟩

/-- groq.ts fixMeaningIssues, lines 735-748: a successful call defaults the
translation to the input and the reverse to the empty string, an AbortError
is re-thrown (none), any other failure returns the input translation with an
EMPTY reverse translation. -/
def fixMeaningIssuesModel (translation : String) (api : CallOutcome ParsedFix) :
    Option (String × String) :=
  match api with
  | CallOutcome.ok parsed =>
      some (jsOrStr parsed.translation translation, jsOrStr parsed.reverse_translation "")
  | CallOutcome.aborted => none
  | CallOutcome.failed => some (translation, "")

/-- groq.ts fixNaturalness, lines 800-812: identical failure shape to
fixMeaningIssues. -/
def fixNaturalnessModel (translation : String) (api : CallOutcome ParsedFix) :
    Option (String × String) :=
  match api with
  | CallOutcome.ok parsed =>
      some (jsOrStr parsed.translation translation, jsOrStr parsed.reverse_translation "")
  | CallOutcome.aborted => none
  | CallOutcome.failed => some (translation, "")

inductive BandStatus
  | verifying
  | fixing
  | passed
deriving DecidableEq, Repr

/-- Oracles for the three completion calls of one verification round. -/
structure VerifyEnv where
  verifyApi : CallOutcome ParsedVerification
  fixMeaningApi : CallOutcome ParsedFix
  fixNaturalApi : CallOutcome ParsedFix
deriving DecidableEq, Repr

def isActionable (i : VerificationIssue) : Bool :=
  i.severity = Severity.high || i.severity = Severity.medium

def isNaturalType (i : VerificationIssue) : Bool :=
  i.type = IssueType.unnatural || i.type = IssueType.reverse_subject ||
    i.type = IssueType.reverse_unnatural

/-- verifyAndFixOneBand, lines 341-367 of the chat screen: verify, filter
actionable issues, run the meaning fix then the naturalness fix sequentially,
apply each fix to the cache, end with status passed; the surrounding catch
maps any thrown AbortError to a null status. Returns the final cache and the
final verificationStatus entry for the band (none models null). -/
def verifyAndFixOneBandModel (tone : String) (bucket : Nat) (isNativeParam : Bool)
    (translation : String) (sourceText sourceLang targetLang : String)
    (env : VerifyEnv) (cache : Cache) : Cache × Option BandStatus :=
  match verifyTranslationModel env.verifyApi with
  | none => (cache, none)
  | some result =>
      let actionableIssues := result.issues.filter isActionable
      if actionableIssues.isEmpty then (cache, some BandStatus.passed)
      else
        let meaningIssues := actionableIssues.filter (fun i => !isNaturalType i)
        let naturalIssues := actionableIssues.filter isNaturalType
        if meaningIssues.isEmpty then
          match fixNaturalnessModel translation env.fixNaturalApi with
          | none => (cache, none)
          | some fixed2 =>
              ((applyFixModel tone bucket sourceText sourceLang targetLang isNativeParam
                  fixed2.1 fixed2.2 cache).1,
               some BandStatus.passed)
        else
          match fixMeaningIssuesModel translation env.fixMeaningApi with
          | none => (cache, none)
          | some fixed =>
              let currentTranslation := fixed.1
              let cacheAfterMeaning :=
                (applyFixModel tone bucket sourceText sourceLang targetLang isNativeParam
                  fixed.1 fixed.2 cache).1
              if naturalIssues.isEmpty then (cacheAfterMeaning, some BandStatus.passed)
              else
                match fixNaturalnessModel currentTranslation env.fixNaturalApi with
                | none => (cacheAfterMeaning, none)
                | some fixed2 =>
                    ((applyFixModel tone bucket sourceText sourceLang targetLang
                        isNativeParam fixed2.1 fixed2.2 cacheAfterMeaning).1,
                     some BandStatus.passed)

-- ============ shared helper lemmas ============

/-- Keys for buckets 50 and 100 never collide: the bucket digits make the key
lengths differ. -/
theorem getCacheKey_50_ne_100 (tone : Option String) (text : String)
    (custom sl tl : Option String) (nat : Bool) :
    getCacheKey tone 50 text custom sl tl nat ≠
      getCacheKey tone 100 text custom sl tl nat := by
  intro h
  have h2 := congrArg String.length h
  simp only [getCacheKey, String.length_append] at h2
  have e1 : (toString (50 : Nat)).length = 2 := rfl
  have e2 : (toString (100 : Nat)).length = 3 := rfl
  rw [e1, e2] at h2
  omega

/-- Everything that survives the kana strip is kana-free, so the stripped and
trimmed translation never retains hiragana or katakana. -/
theorem hasKanaStr_strTrim_removeKana (s : String) :
    hasKanaStr (strTrim (removeKanaChars s)) = false := by
  rw [Bool.eq_false_iff]
  intro h
  simp only [hasKanaStr, strTrim, removeKanaChars, List.any_eq_true] at h
  obtain ⟨c, hc, hk⟩ := h
  unfold trimChars at hc
  rw [List.mem_reverse] at hc
  have h1 := (List.dropWhile_sublist Char.isWhitespace).subset hc
  rw [List.mem_reverse] at h1
  have h2 := (List.dropWhile_sublist Char.isWhitespace).subset h1
  rw [List.mem_filter] at h2
  simp [hk] at h2

-- ============ C10 ============

/-- C10: if the source text classifies as a statement, the modality-consistency
check passes for every candidate translation, so the modality fallback can
never trigger for a statement source. -/
theorem statement_source_always_passes (originalText translatedText : String)
    (h : extractModalityClass originalText = ModalityClass.statement) :
    (checkModalityConsistency originalText translatedText).passed = true := by
  simp [checkModalityConsistency, h]

theorem statement_source_always_passes_witness :
    extractModalityClass "hello" = ModalityClass.statement ∧
    (checkModalityConsistency "hello" "are you ok?").passed = true :=
  ⟨by decide, statement_source_always_passes "hello" "are you ok?" (by decide)⟩

-- ============ C6 ============

/-- C6: a non-abort failure of the level-50/100 partial completion degrades to
the base translation as the band text, the original source text as the reverse
translation and risk high, with no fallback network call; an abort error is
re-thrown to the caller instead of being swallowed. -/
theorem partial_failure_degrades_to_base (baseTranslation tone : String)
    (toneLevel : Nat) (targetLang sourceLang originalText : String)
    (fb : Option TranslationResult) (mc : Option String) (env : PartialEnv) :
    (env.partialCall = CallOutcome.failed →
       translatePartialSpacyModel baseTranslation tone toneLevel targetLang sourceLang
         originalText fb mc env =
         (CallOutcome.ok ⟨baseTranslation, originalText, Risk.high⟩, false)) ∧
    (env.partialCall = CallOutcome.aborted →
       translatePartialSpacyModel baseTranslation tone toneLevel targetLang sourceLang
         originalText fb mc env = (CallOutcome.aborted, false)) := by
  constructor <;> intro h <;> simp [translatePartialSpacyModel, h]

theorem partial_failure_degrades_to_base_witness :
    translatePartialSpacyModel "Base text" "casual" 50 "英語" "日本語" "元の文" none none
      ⟨CallOutcome.failed, fun _ => CallOutcome.failed⟩ =
      (CallOutcome.ok ⟨"Base text", "元の文", Risk.high⟩, false) :=
  (partial_failure_degrades_to_base "Base text" "casual" 50 "英語" "日本語" "元の文"
    none none ⟨CallOutcome.failed, fun _ => CallOutcome.failed⟩).1 rfl

-- ============ C7 ============

/-- C7 (counterexample to the claim as stated): with target language 英語 and
the all-kana translation はい, the guard flags risk high but returns the
translation UNstripped (the stripped text would be empty and is discarded). -/
theorem language_guard_keeps_all_kana_translation :
    applyTranslationLanguageGuard "英語" ⟨"はい", "yes", Risk.low⟩ =
      ⟨"はい", "yes", Risk.high⟩ ∧
    hasKanaStr "はい" = true := by decide

/-- C7 (amended): with target language 英語, a translation containing
hiragana/katakana is flagged risk high; the returned translation is the
kana-stripped and trimmed text — then free of hiragana/katakana — unless the
strip leaves the empty string, in which case the original translation is
returned unchanged. -/
theorem language_guard_strips_kana (targetLang : String) (result : TranslationResult)
    (h1 : targetLang = "英語") (h2 : hasKanaStr result.translation = true) :
    (applyTranslationLanguageGuard targetLang result).risk = Risk.high ∧
    ((strTrim (removeKanaChars result.translation) = "" ∧
        (applyTranslationLanguageGuard targetLang result).translation =
          result.translation) ∨
     (strTrim (removeKanaChars result.translation) ≠ "" ∧
        (applyTranslationLanguageGuard targetLang result).translation =
          strTrim (removeKanaChars result.translation) ∧
        hasKanaStr (applyTranslationLanguageGuard targetLang result).translation =
          false)) := by
  subst h1
  by_cases hc : strTrim (removeKanaChars result.translation) = ""
  · constructor
    · simp [applyTranslationLanguageGuard, h2]
    · exact Or.inl ⟨hc, by simp [applyTranslationLanguageGuard, h2, hc]⟩
  · constructor
    · simp [applyTranslationLanguageGuard, h2]
    · refine Or.inr ⟨hc, ?_, ?_⟩
      · simp [applyTranslationLanguageGuard, h2, hc]
      · have he : (applyTranslationLanguageGuard "英語" result).translation =
            strTrim (removeKanaChars result.translation) := by
          simp [applyTranslationLanguageGuard, h2, hc]
        rw [he, hasKanaStr_strTrim_removeKana]

theorem language_guard_strips_kana_witness :
    hasKanaStr ("Hello せかい") = true ∧
    ((applyTranslationLanguageGuard "英語" ⟨"Hello せかい", "x", Risk.low⟩).risk =
        Risk.high ∧
     ((strTrim (removeKanaChars ("Hello せかい" : String)) = "" ∧
         (applyTranslationLanguageGuard "英語" ⟨"Hello せかい", "x", Risk.low⟩).translation =
           "Hello せかい") ∨
      (strTrim (removeKanaChars ("Hello せかい" : String)) ≠ "" ∧
         (applyTranslationLanguageGuard "英語" ⟨"Hello せかい", "x", Risk.low⟩).translation =
           strTrim (removeKanaChars ("Hello せかい" : String)) ∧
         hasKanaStr
           (applyTranslationLanguageGuard "英語"
             ⟨"Hello せかい", "x", Risk.low⟩).translation = false))) :=
  ⟨by decide, language_guard_strips_kana "英語" ⟨"Hello せかい", "x", Risk.low⟩ rfl
    (by decide)⟩

-- ============ C8 ============

/-- C8 (counterexample to the claim as stated): a result produced with
target language 日本語 (source language 英語) whose reverse translation
contains no Japanese characters is returned completely unchanged with risk
low — the guard keys on the SOURCE language, not the target language. -/
theorem reverse_guard_ignores_target_japanese :
    applyGuardsFull "Hello" "英語" "日本語" ⟨"こんにちは", "Hi there", Risk.low⟩ =
      ⟨"こんにちは", "Hi there", Risk.low⟩ ∧
    hasJapaneseCharacters "Hi there" = false := by decide

/-- C8 (amended): with SOURCE language 日本語, whenever the reverse translation
returned by the reverse-purity guard contains no Japanese characters at all,
the result is flagged risk high rather than returned unchanged. -/
theorem reverse_guard_flags_nonjapanese_reverse (sourceLang : String)
    (result : TranslationResult) (h1 : sourceLang = "日本語")
    (h2 : hasJapaneseCharacters
        (applyReverseTranslationGuard sourceLang result).reverse_translation = false) :
    (applyReverseTranslationGuard sourceLang result).risk = Risk.high := by
  subst h1
  have hrev : (applyReverseTranslationGuard "日本語" result).reverse_translation =
      fixDoubleEnding (strTrim result.reverse_translation) := by
    unfold applyReverseTranslationGuard
    simp only [ne_eq, not_true_eq_false, if_false]
    split <;> rfl
  rw [hrev] at h2
  unfold applyReverseTranslationGuard
  simp only [ne_eq, not_true_eq_false, if_false]
  rw [if_pos]
  simp [h2]

theorem reverse_guard_flags_nonjapanese_reverse_witness :
    hasJapaneseCharacters
      (applyReverseTranslationGuard "日本語" ⟨"t", "Hello", Risk.low⟩).reverse_translation =
      false ∧
    (applyReverseTranslationGuard "日本語" ⟨"t", "Hello", Risk.low⟩).risk = Risk.high :=
  ⟨by decide, reverse_guard_flags_nonjapanese_reverse "日本語" ⟨"t", "Hello", Risk.low⟩
    rfl (by decide)⟩

-- ============ C9 ============

/-- C9 (counterexample to the claim as stated): the key is not injective in
the request fields — a custom style text ending in _native with the native
marker off collides with the shorter style text with the marker on, so equal
keys do NOT imply equal fields. -/
theorem cache_key_not_injective :
    getCacheKey (some "custom") 0 "hi" (some "x_native") (some "日本語") (some "英語")
        false =
      getCacheKey (some "custom") 0 "hi" (some "x") (some "日本語") (some "英語") true ∧
    ((some "x_native" : Option String), false) ≠ ((some "x" : Option String), true) := by
  decide

/-- C9 (amended): the key is a deterministic function of the fields and, for
provided non-empty fields (with a custom style only for the custom tone),
follows the documented format promptVersion|sourceLang->targetLang|sourceText|
tone_level[_customStyle][_nativeMarker]; requests with identical fields map to
the same key, but distinct field combinations can collide. -/
theorem cache_key_follows_format (t : String) (lvl : Nat) (text : String)
    (custom : Option String) (sl tl : String) (nat : Bool)
    (ht : t ≠ "") (hsl : sl ≠ "") (htl : tl ≠ "")
    (hc : ∀ c, custom = some c → t = "custom" ∧ c ≠ "") :
    getCacheKey (some t) lvl text custom (some sl) (some tl) nat =
      specCacheKeyFormat PROMPT_VERSION sl tl text t lvl custom nat := by
  unfold getCacheKey specCacheKeyFormat
  cases custom with
  | none => simp [ht, hsl, htl, String.append_assoc]
  | some c =>
      obtain ⟨hcu, hce⟩ := hc c rfl
      subst hcu
      simp [ht, hsl, htl, hce, String.append_assoc]

theorem cache_key_follows_format_witness :
    getCacheKey (some "casual") 50 "おはよう" none (some "日本語") (some "英語") false =
      specCacheKeyFormat PROMPT_VERSION "日本語" "英語" "おはよう" "casual" 50 none false :=
  cache_key_follows_format "casual" 50 "おはよう" none "日本語" "英語" false
    (by decide) (by decide) (by decide) (fun c h => absurd h (by simp))

-- ============ C1 ============

/-- For a level-50 band entry: the cached flag some (T == F) is true exactly
when the band text T equals the neighbor text F, and then the displayed
reverse is the neighbor reverse S. -/
theorem bandPair50_props (F S T R : String) :
    ((some (T == F) : Option Bool) = some true ↔ T = F) ∧
    ((some (T == F) : Option Bool) = some true → (if T == F then S else R) = S) := by
  constructor
  · simp
  · intro h
    simp only [Option.some.injEq] at h
    rw [if_pos h]

/-- For a level-100 band entry compared against the level-50 result. -/
theorem bandPair100_props (F S T50 R50 T100 R100 : String) :
    ((some (T100 == (if T50 == F then F else T50)) : Option Bool) = some true ↔
       T100 = T50) ∧
    ((some (T100 == (if T50 == F then F else T50)) : Option Bool) = some true →
       (if T100 == (if T50 == F then F else T50) then (if T50 == F then S else R50)
        else R100) = (if T50 == F then S else R50)) := by
  constructor
  · by_cases h : T50 = F <;> simp [h]
  · intro h
    simp only [Option.some.injEq] at h
    rw [if_pos h]

/-- C1: in both generators, a generated casual/business band's cached noChange
flag is true iff its translation is byte-identical to its less-extreme
neighbor's cached translation (level 50 vs the base entry, level 100 vs the
level-50 entry), and a flagged band's cached reverse translation equals the
neighbor's cached reverse translation. -/
theorem noChange_iff_identical_to_neighbor (sourceText : String)
    (fullResult lvl50 lvl100 : TranslationResult) (g : AllToneOutcomes) :
    (((generateAndCacheUiBucketsEntries sourceText fullResult lvl50 lvl100).2.1.noChange =
        some true ↔
      (generateAndCacheUiBucketsEntries sourceText fullResult lvl50 lvl100).2.1.translation =
        (generateAndCacheUiBucketsEntries sourceText fullResult lvl50 lvl100).1.translation) ∧
     ((generateAndCacheUiBucketsEntries sourceText fullResult lvl50 lvl100).2.1.noChange =
        some true →
      (generateAndCacheUiBucketsEntries sourceText fullResult lvl50
          lvl100).2.1.reverseTranslation =
        (generateAndCacheUiBucketsEntries sourceText fullResult lvl50
          lvl100).1.reverseTranslation) ∧
     ((generateAndCacheUiBucketsEntries sourceText fullResult lvl50 lvl100).2.2.noChange =
        some true ↔
      (generateAndCacheUiBucketsEntries sourceText fullResult lvl50 lvl100).2.2.translation =
        (generateAndCacheUiBucketsEntries sourceText fullResult lvl50
          lvl100).2.1.translation) ∧
     ((generateAndCacheUiBucketsEntries sourceText fullResult lvl50 lvl100).2.2.noChange =
        some true →
      (generateAndCacheUiBucketsEntries sourceText fullResult lvl50
          lvl100).2.2.reverseTranslation =
        (generateAndCacheUiBucketsEntries sourceText fullResult lvl50
          lvl100).2.1.reverseTranslation)) ∧
    (((generateAllToneAdjustmentsEntries sourceText g).2.1.noChange = some true ↔
      (generateAllToneAdjustmentsEntries sourceText g).2.1.translation =
        (generateAllToneAdjustmentsEntries sourceText g).1.translation) ∧
     ((generateAllToneAdjustmentsEntries sourceText g).2.1.noChange = some true →
      (generateAllToneAdjustmentsEntries sourceText g).2.1.reverseTranslation =
        (generateAllToneAdjustmentsEntries sourceText g).1.reverseTranslation) ∧
     ((generateAllToneAdjustmentsEntries sourceText g).2.2.1.noChange = some true ↔
      (generateAllToneAdjustmentsEntries sourceText g).2.2.1.translation =
        (generateAllToneAdjustmentsEntries sourceText g).2.1.translation) ∧
     ((generateAllToneAdjustmentsEntries sourceText g).2.2.1.noChange = some true →
      (generateAllToneAdjustmentsEntries sourceText g).2.2.1.reverseTranslation =
        (generateAllToneAdjustmentsEntries sourceText g).2.1.reverseTranslation) ∧
     ((generateAllToneAdjustmentsEntries sourceText g).2.2.2.2.1.noChange = some true ↔
      (generateAllToneAdjustmentsEntries sourceText g).2.2.2.2.1.translation =
        (generateAllToneAdjustmentsEntries sourceText g).2.2.2.1.translation) ∧
     ((generateAllToneAdjustmentsEntries sourceText g).2.2.2.2.1.noChange = some true →
      (generateAllToneAdjustmentsEntries sourceText g).2.2.2.2.1.reverseTranslation =
        (generateAllToneAdjustmentsEntries sourceText g).2.2.2.1.reverseTranslation) ∧
     ((generateAllToneAdjustmentsEntries sourceText g).2.2.2.2.2.noChange = some true ↔
      (generateAllToneAdjustmentsEntries sourceText g).2.2.2.2.2.translation =
        (generateAllToneAdjustmentsEntries sourceText g).2.2.2.2.1.translation) ∧
     ((generateAllToneAdjustmentsEntries sourceText g).2.2.2.2.2.noChange = some true →
      (generateAllToneAdjustmentsEntries sourceText g).2.2.2.2.2.reverseTranslation =
        (generateAllToneAdjustmentsEntries sourceText g).2.2.2.2.1.reverseTranslation)) := by
  refine ⟨⟨?_, ?_, ?_, ?_⟩, ?_, ?_, ?_, ?_, ?_, ?_, ?_, ?_⟩
  · exact (bandPair50_props fullResult.translation sourceText lvl50.translation
      lvl50.reverse_translation).1
  · exact (bandPair50_props fullResult.translation sourceText lvl50.translation
      lvl50.reverse_translation).2
  · exact (bandPair100_props fullResult.translation sourceText lvl50.translation
      lvl50.reverse_translation lvl100.translation lvl100.reverse_translation).1
  · exact (bandPair100_props fullResult.translation sourceText lvl50.translation
      lvl50.reverse_translation lvl100.translation lvl100.reverse_translation).2
  · exact (bandPair50_props g.fullResult.translation sourceText
      (finalCasual50 g).translation (finalCasual50 g).reverse_translation).1
  · exact (bandPair50_props g.fullResult.translation sourceText
      (finalCasual50 g).translation (finalCasual50 g).reverse_translation).2
  · exact (bandPair100_props g.fullResult.translation sourceText
      (finalCasual50 g).translation (finalCasual50 g).reverse_translation
      g.casual100Full.translation g.casual100Full.reverse_translation).1
  · exact (bandPair100_props g.fullResult.translation sourceText
      (finalCasual50 g).translation (finalCasual50 g).reverse_translation
      g.casual100Full.translation g.casual100Full.reverse_translation).2
  · exact (bandPair50_props g.fullResult.translation sourceText
      (finalBusiness50 g).translation (finalBusiness50 g).reverse_translation).1
  · exact (bandPair50_props g.fullResult.translation sourceText
      (finalBusiness50 g).translation (finalBusiness50 g).reverse_translation).2
  · exact (bandPair100_props g.fullResult.translation sourceText
      (finalBusiness50 g).translation (finalBusiness50 g).reverse_translation
      (finalBusiness100 g).translation (finalBusiness100 g).reverse_translation).1
  · exact (bandPair100_props g.fullResult.translation sourceText
      (finalBusiness50 g).translation (finalBusiness50 g).reverse_translation
      (finalBusiness100 g).translation (finalBusiness100 g).reverse_translation).2

theorem noChange_iff_identical_to_neighbor_witness :
    ((generateAndCacheUiBucketsEntries "s" ⟨"T", "rf", Risk.low⟩ ⟨"T", "r5", Risk.low⟩
        ⟨"U", "r1", Risk.low⟩).2.1.noChange = some true ∧
     (generateAndCacheUiBucketsEntries "s" ⟨"T", "rf", Risk.low⟩ ⟨"T", "r5", Risk.low⟩
        ⟨"U", "r1", Risk.low⟩).2.1.reverseTranslation =
       (generateAndCacheUiBucketsEntries "s" ⟨"T", "rf", Risk.low⟩ ⟨"T", "r5", Risk.low⟩
        ⟨"U", "r1", Risk.low⟩).1.reverseTranslation) ∧
    ((generateAllToneAdjustmentsEntries "s"
        ⟨⟨"T", "rf", Risk.low⟩, ⟨"T", "c5", Risk.low⟩, ⟨"T", "b5", Risk.low⟩,
         ⟨"T", "cr", Risk.low⟩, ⟨"T", "br", Risk.low⟩, ⟨"T", "c1", Risk.low⟩,
         ⟨"T", "b1", Risk.low⟩, ⟨"T", "b1r", Risk.low⟩⟩).2.2.2.2.2.noChange = some true ∧
     (generateAllToneAdjustmentsEntries "s"
        ⟨⟨"T", "rf", Risk.low⟩, ⟨"T", "c5", Risk.low⟩, ⟨"T", "b5", Risk.low⟩,
         ⟨"T", "cr", Risk.low⟩, ⟨"T", "br", Risk.low⟩, ⟨"T", "c1", Risk.low⟩,
         ⟨"T", "b1", Risk.low⟩, ⟨"T", "b1r", Risk.low⟩⟩).2.2.2.2.2.reverseTranslation =
       (generateAllToneAdjustmentsEntries "s"
        ⟨⟨"T", "rf", Risk.low⟩, ⟨"T", "c5", Risk.low⟩, ⟨"T", "b5", Risk.low⟩,
         ⟨"T", "cr", Risk.low⟩, ⟨"T", "br", Risk.low⟩, ⟨"T", "c1", Risk.low⟩,
         ⟨"T", "b1", Risk.low⟩, ⟨"T", "b1r", Risk.low⟩⟩).2.2.2.2.1.reverseTranslation) :=
  ⟨⟨by decide,
    (noChange_iff_identical_to_neighbor "s" ⟨"T", "rf", Risk.low⟩ ⟨"T", "r5", Risk.low⟩
        ⟨"U", "r1", Risk.low⟩
        ⟨⟨"T", "rf", Risk.low⟩, ⟨"T", "c5", Risk.low⟩, ⟨"T", "b5", Risk.low⟩,
         ⟨"T", "cr", Risk.low⟩, ⟨"T", "br", Risk.low⟩, ⟨"T", "c1", Risk.low⟩,
         ⟨"T", "b1", Risk.low⟩, ⟨"T", "b1r", Risk.low⟩⟩).1.2.1 (by decide)⟩,
   ⟨by decide,
    (noChange_iff_identical_to_neighbor "s" ⟨"T", "rf", Risk.low⟩ ⟨"T", "r5", Risk.low⟩
        ⟨"U", "r1", Risk.low⟩
        ⟨⟨"T", "rf", Risk.low⟩, ⟨"T", "c5", Risk.low⟩, ⟨"T", "b5", Risk.low⟩,
         ⟨"T", "cr", Risk.low⟩, ⟨"T", "br", Risk.low⟩, ⟨"T", "c1", Risk.low⟩,
         ⟨"T", "b1", Risk.low⟩, ⟨"T", "b1r", Risk.low⟩⟩).2.2.2.2.2.2.2.2 (by decide)⟩⟩

-- ============ C2 ============

/-- Core of C2, with the two cache keys abstract: the equal-text branch writes
both entries in one batch; the 50-bucket divergence branch leaves the sibling
with a recomputed flag. -/
theorem applyFixCore50_props (k50 k100 fT fR : String) (hne : k50 ≠ k100)
    (cache : Cache) (other : CacheEntry) (hOther : cache k100 = some other) :
    (other.translation = fT →
       (applyFixCore 50 k50 k100 fT fR cache).1 k50 = some ⟨fT, fR, some true⟩ ∧
       (applyFixCore 50 k50 k100 fT fR cache).1 k100 =
         some ⟨other.translation, fR, some true⟩ ∧
       (applyFixCore 50 k50 k100 fT fR cache).2 =
         [[(k50, ⟨fT, fR, none⟩)],
          [(k100, ⟨other.translation, fR, some true⟩), (k50, ⟨fT, fR, some true⟩)]]) ∧
    (other.translation ≠ fT →
       (applyFixCore 50 k50 k100 fT fR cache).1 k100 =
         some { other with noChange := some false }) := by
  have hc1 : writeBatch cache [(k50, (⟨fT, fR, none⟩ : CacheEntry))] k100 = some other := by
    simp only [writeBatch, List.foldl]
    rw [if_neg (Ne.symm hne)]
    exact hOther
  constructor
  · intro heq
    simp only [applyFixCore, hc1]
    rw [if_pos heq]
    refine ⟨?_, ?_, rfl⟩
    · simp only [writeBatch, List.foldl]
      simp
    · simp only [writeBatch, List.foldl]
      rw [if_neg (Ne.symm hne)]
      simp
  · intro hneq
    simp only [applyFixCore, hc1]
    rw [if_neg hneq]
    simp only [if_true, Nat.reduceEqDiff, ite_true, eq_self_iff_true]
    have hb : (other.translation == fT) = false := by simp [hneq]
    rw [hb]
    by_cases hch : other.noChange = some false
    · rw [if_neg (by simp [hch])]
      simp only [writeBatch, List.foldl]
      rw [if_neg (Ne.symm hne)]
      rw [hOther]
      cases other with
      | mk t r n => simp_all
    · rw [if_pos (by simpa using hch)]
      simp only [writeBatch, List.foldl]
      simp

set_option maxHeartbeats 1000000 in
/-- C2: a successful repair fix applied to the 50 percent band with the 100
percent band already cached: if the fixed text equals the cached 100 percent
translation, both entries end marked noChange true with the fixed reverse
translation, written in ONE updateTranslationCache batch (the second and last
batch of the trace); otherwise the 100 percent band's noChange flag ends
recomputed to false. -/
theorem applyFix50_sibling_consistency (tone sourceText sourceLang targetLang : String)
    (isNat : Bool) (fT fR : String) (cache : Cache) (other : CacheEntry)
    (hOther : cache (bandKey tone 100 sourceText sourceLang targetLang isNat) =
      some other) :
    (other.translation = fT →
       (applyFixModel tone 50 sourceText sourceLang targetLang isNat fT fR cache).1
           (bandKey tone 50 sourceText sourceLang targetLang isNat) =
         some ⟨fT, fR, some true⟩ ∧
       (applyFixModel tone 50 sourceText sourceLang targetLang isNat fT fR cache).1
           (bandKey tone 100 sourceText sourceLang targetLang isNat) =
         some ⟨other.translation, fR, some true⟩ ∧
       (applyFixModel tone 50 sourceText sourceLang targetLang isNat fT fR cache).2 =
         [[(bandKey tone 50 sourceText sourceLang targetLang isNat, ⟨fT, fR, none⟩)],
          [(bandKey tone 100 sourceText sourceLang targetLang isNat,
              ⟨other.translation, fR, some true⟩),
           (bandKey tone 50 sourceText sourceLang targetLang isNat,
              ⟨fT, fR, some true⟩)]]) ∧
    (other.translation ≠ fT →
       (applyFixModel tone 50 sourceText sourceLang targetLang isNat fT fR cache).1
           (bandKey tone 100 sourceText sourceLang targetLang isNat) =
         some { other with noChange := some false }) :=
  applyFixCore50_props (bandKey tone 50 sourceText sourceLang targetLang isNat)
    (bandKey tone 100 sourceText sourceLang targetLang isNat) fT fR
    (getCacheKey_50_ne_100 (some tone) sourceText none (some sourceLang)
      (some targetLang) isNat)
    cache other hOther

theorem applyFix50_sibling_consistency_witness :
    (applyFixModel "business" 50 "x" "日本語" "英語" false "T" "R2"
        (fun k => if k = bandKey "business" 100 "x" "日本語" "英語" false
                  then some ⟨"T", "R1", some false⟩ else none)).1
        (bandKey "business" 50 "x" "日本語" "英語" false) =
      some ⟨"T", "R2", some true⟩ ∧
    (applyFixModel "business" 50 "x" "日本語" "英語" false "T" "R2"
        (fun k => if k = bandKey "business" 100 "x" "日本語" "英語" false
                  then some ⟨"T", "R1", some false⟩ else none)).1
        (bandKey "business" 100 "x" "日本語" "英語" false) =
      some ⟨"T", "R2", some true⟩ ∧
    (applyFixModel "business" 50 "x" "日本語" "英語" false "T" "R2"
        (fun k => if k = bandKey "business" 100 "x" "日本語" "英語" false
                  then some ⟨"T", "R1", some false⟩ else none)).2 =
      [[(bandKey "business" 50 "x" "日本語" "英語" false, ⟨"T", "R2", none⟩)],
       [(bandKey "business" 100 "x" "日本語" "英語" false, ⟨"T", "R2", some true⟩),
        (bandKey "business" 50 "x" "日本語" "英語" false, ⟨"T", "R2", some true⟩)]] :=
  (applyFix50_sibling_consistency "business" "x" "日本語" "英語" false "T" "R2"
    (fun k => if k = bandKey "business" 100 "x" "日本語" "英語" false
              then some ⟨"T", "R1", some false⟩ else none)
    ⟨"T", "R1", some false⟩ (by decide)).1 rfl

-- ============ C3 ============

/-- C3 (counterexample to the claim as stated): a repair fix applied to the
100 percent band whose fixed text equals the cached 50 percent translation
DOES rewrite the 50 percent band's entry (noChange flipped to true, reverse
translation replaced), so propagation is not one-directional. -/
theorem applyFix100_modifies_band50 :
    (applyFixModel "business" 100 "x" "日本語" "英語" false "T" "R2"
        (fun k => if k = bandKey "business" 50 "x" "日本語" "英語" false
                  then some ⟨"T", "R1", some false⟩ else none)).1
        (bandKey "business" 50 "x" "日本語" "英語" false) =
      some ⟨"T", "R2", some true⟩ ∧
    (some (⟨"T", "R1", some false⟩ : CacheEntry) ≠
      some (⟨"T", "R2", some true⟩ : CacheEntry)) := by decide

/-- Core of the amended C3, with the two cache keys abstract. -/
theorem applyFixCore100_frame (k100 k50 fT fR : String) (hne : k100 ≠ k50)
    (cache : Cache) :
    (cache k50 = none → (applyFixCore 100 k100 k50 fT fR cache).1 k50 = none) ∧
    (∀ other : CacheEntry, cache k50 = some other → other.translation ≠ fT →
       (applyFixCore 100 k100 k50 fT fR cache).1 k50 = some other) ∧
    (∀ other : CacheEntry, cache k50 = some other → other.translation = fT →
       (applyFixCore 100 k100 k50 fT fR cache).1 k50 =
         some ⟨other.translation, fR, some true⟩ ∧
       (applyFixCore 100 k100 k50 fT fR cache).1 k100 = some ⟨fT, fR, some true⟩) := by
  have hc1 : ∀ v, cache k50 = v →
      writeBatch cache [(k100, (⟨fT, fR, none⟩ : CacheEntry))] k50 = v := by
    intro v hv
    simp only [writeBatch, List.foldl]
    rw [if_neg (Ne.symm hne)]
    exact hv
  refine ⟨?_, ?_, ?_⟩
  · intro hnone
    simp only [applyFixCore, hc1 none hnone]
  · intro other hsome hneq
    simp only [applyFixCore, hc1 (some other) hsome]
    rw [if_neg hneq, if_neg (by norm_num : ¬(100 : Nat) = 50)]
    exact hc1 (some other) hsome
  · intro other hsome heq
    simp only [applyFixCore, hc1 (some other) hsome]
    rw [if_pos heq]
    constructor
    · simp only [writeBatch, List.foldl]
      rw [if_neg (Ne.symm hne)]
      simp
    · simp only [writeBatch, List.foldl]
      simp

set_option maxHeartbeats 1000000 in
/-- C3 (amended): a repair fix applied to the 100 percent band leaves the 50
percent band's cache entry untouched UNLESS the fixed text equals the 50
percent band's cached translation, in which case both bands are rewritten as
noChange true with the fixed reverse translation; the flag-recomputation
branch itself never runs for a 100 percent fix. -/
theorem applyFix100_frame_effect (tone sourceText sourceLang targetLang : String)
    (isNat : Bool) (fT fR : String) (cache : Cache) :
    (cache (bandKey tone 50 sourceText sourceLang targetLang isNat) = none →
       (applyFixModel tone 100 sourceText sourceLang targetLang isNat fT fR cache).1
         (bandKey tone 50 sourceText sourceLang targetLang isNat) = none) ∧
    (∀ other : CacheEntry,
       cache (bandKey tone 50 sourceText sourceLang targetLang isNat) = some other →
       other.translation ≠ fT →
       (applyFixModel tone 100 sourceText sourceLang targetLang isNat fT fR cache).1
         (bandKey tone 50 sourceText sourceLang targetLang isNat) = some other) ∧
    (∀ other : CacheEntry,
       cache (bandKey tone 50 sourceText sourceLang targetLang isNat) = some other →
       other.translation = fT →
       (applyFixModel tone 100 sourceText sourceLang targetLang isNat fT fR cache).1
           (bandKey tone 50 sourceText sourceLang targetLang isNat) =
         some ⟨other.translation, fR, some true⟩ ∧
       (applyFixModel tone 100 sourceText sourceLang targetLang isNat fT fR cache).1
           (bandKey tone 100 sourceText sourceLang targetLang isNat) =
         some ⟨fT, fR, some true⟩) :=
  applyFixCore100_frame (bandKey tone 100 sourceText sourceLang targetLang isNat)
    (bandKey tone 50 sourceText sourceLang targetLang isNat) fT fR
    (Ne.symm (getCacheKey_50_ne_100 (some tone) sourceText none (some sourceLang)
      (some targetLang) isNat))
    cache

theorem applyFix100_frame_effect_witness :
    (applyFixModel "casual" 100 "x" "日本語" "英語" false "B" "R2"
        (fun k => if k = bandKey "casual" 50 "x" "日本語" "英語" false
                  then some ⟨"A", "r", none⟩ else none)).1
        (bandKey "casual" 50 "x" "日本語" "英語" false) = some ⟨"A", "r", none⟩ :=
  (applyFix100_frame_effect "casual" "x" "日本語" "英語" false "B" "R2"
    (fun k => if k = bandKey "casual" 50 "x" "日本語" "英語" false
              then some ⟨"A", "r", none⟩ else none)).2.1
    ⟨"A", "r", none⟩ (by decide) (by decide)

-- ============ C5 ============

/-- C5 (code bug evidence): when verification reports one high-severity
meaning issue and the meaning-repair completion call fails with a NON-abort
error, the band is treated as passed, but the band's cache entry is rewritten:
the translation is kept while the cached reverse translation R is overwritten
with the empty string and the noChange flag is dropped — the cache is NOT left
exactly as it was. -/
theorem verify_fix_failure_rewrites_cache :
    (verifyAndFixOneBandModel "casual" 50 false "T" "src" "日本語" "英語"
        ⟨CallOutcome.ok ⟨some false, some [⟨IssueType.meaning_shift, Severity.high⟩]⟩,
         CallOutcome.failed, CallOutcome.failed⟩
        (fun k => if k = bandKey "casual" 50 "src" "日本語" "英語" false
                  then some ⟨"T", "R", some false⟩ else none)).2 =
      some BandStatus.passed ∧
    (verifyAndFixOneBandModel "casual" 50 false "T" "src" "日本語" "英語"
        ⟨CallOutcome.ok ⟨some false, some [⟨IssueType.meaning_shift, Severity.high⟩]⟩,
         CallOutcome.failed, CallOutcome.failed⟩
        (fun k => if k = bandKey "casual" 50 "src" "日本語" "英語" false
                  then some ⟨"T", "R", some false⟩ else none)).1
        (bandKey "casual" 50 "src" "日本語" "英語" false) =
      some ⟨"T", "", none⟩ ∧
    (some (⟨"T", "R", some false⟩ : CacheEntry) ≠
      some (⟨"T", "", none⟩ : CacheEntry)) := by decide

-- ============ C4 ============

set_option maxHeartbeats 1000000 in
/-- C4: the classifier labels ちょっと手伝ってくれる? a request, and a partial
candidate whose guarded translation classifies as confirmation is never
returned: with a previously generated passing band supplied, that band is
returned with no new network call; otherwise the result is exactly the
full-simple regeneration invoked with the meaning anchors only (no content
words, no tone instruction, no structural constraints). -/
theorem request_source_confirmation_fallback (baseTranslation tone : String)
    (toneLevel : Nat) (targetLang sourceLang : String)
    (fb : Option TranslationResult) (mc : Option String)
    (fs : FullSimpleArgs → CallOutcome TranslationResult) (parsed : ParsedPartial)
    (hconf : extractModalityClass
        (applyTranslationLanguageGuard targetLang
          ⟨jsOrStr parsed.translation baseTranslation,
           jsOrStr parsed.reverse_translation "ちょっと手伝ってくれる?",
           Risk.low⟩).translation = ModalityClass.confirmation) :
    extractModalityClass "ちょっと手伝ってくれる?" = ModalityClass.request ∧
    (∀ f, fb = some f →
       translatePartialSpacyModel baseTranslation tone toneLevel targetLang sourceLang
         "ちょっと手伝ってくれる?" fb mc ⟨CallOutcome.ok parsed, fs⟩ =
         (CallOutcome.ok f, false)) ∧
    (fb = none →
       translatePartialSpacyModel baseTranslation tone toneLevel targetLang sourceLang
         "ちょっと手伝ってくれる?" fb mc ⟨CallOutcome.ok parsed, fs⟩ =
         (match fs ⟨"ちょっと手伝ってくれる?", sourceLang, targetLang, none, mc,
             none, none⟩ with
          | CallOutcome.ok r =>
              CallOutcome.ok (⟨r.translation, r.reverse_translation, r.risk⟩ :
                TranslationResult)
          | CallOutcome.aborted => CallOutcome.aborted
          | CallOutcome.failed =>
              CallOutcome.ok ⟨baseTranslation, "ちょっと手伝ってくれる?", Risk.high⟩,
          true)) := by
  have hreq : extractModalityClass "ちょっと手伝ってくれる?" = ModalityClass.request := by
    decide
  have hfail : (checkModalityConsistency "ちょっと手伝ってくれる?"
      (applyTranslationLanguageGuard targetLang
        ⟨jsOrStr parsed.translation baseTranslation,
         jsOrStr parsed.reverse_translation "ちょっと手伝ってくれる?",
         Risk.low⟩).translation).passed = false := by
    unfold checkModalityConsistency
    rw [hreq, hconf]
    simp
  refine ⟨hreq, ?_, ?_⟩
  · intro f hf
    subst hf
    simp only [translatePartialSpacyModel, hfail]
    simp
  · intro hf
    subst hf
    simp only [translatePartialSpacyModel, hfail]
    simp only [Bool.false_eq_true, if_false]
    cases hcall : fs ⟨"ちょっと手伝ってくれる?", sourceLang, targetLang, none, mc,
        none, none⟩ <;> simp

theorem request_source_confirmation_fallback_witness :
    extractModalityClass
        (applyTranslationLanguageGuard "英語"
          ⟨jsOrStr (some "are you busy?") "Can you help me?",
           jsOrStr (some "忙しいの?") "ちょっと手伝ってくれる?",
           Risk.low⟩).translation = ModalityClass.confirmation ∧
    translatePartialSpacyModel "Can you help me?" "casual" 50 "英語" "日本語"
        "ちょっと手伝ってくれる?"
        (some ⟨"Could you help me?", "手伝ってもらえる?", Risk.low⟩) none
        ⟨CallOutcome.ok ⟨some "are you busy?", some "忙しいの?"⟩,
         fun _ => CallOutcome.failed⟩ =
      (CallOutcome.ok ⟨"Could you help me?", "手伝ってもらえる?", Risk.low⟩, false) :=
  ⟨by decide,
   (request_source_confirmation_fallback "Can you help me?" "casual" 50 "英語" "日本語"
     (some ⟨"Could you help me?", "手伝ってもらえる?", Risk.low⟩) none
     (fun _ => CallOutcome.failed) ⟨some "are you busy?", some "忙しいの?"⟩
     (by decide)).2.1 ⟨"Could you help me?", "手伝ってもらえる?", Risk.low⟩ rfl⟩
